import Mathlib

/-!
Verification development for the invoice-verification bot (`src/index.js`).

The development shallowly embeds the two core components named by the spec:
`extractInvoiceStatus` (the status extractor, lines 248–303 of the source)
and the `invoice_modal` verification workflow (lines 1241–1493), together
with the `verify_invoice_button` cooldown logic (lines 74–84 and 1497–1511).

JSON documents are modelled by an inductive `Json` type; JavaScript's
truthiness, `typeof x === 'object'` tests and property access on
non-objects are modelled explicitly so the embedded functions follow the
source's control flow branch by branch.
-/

/-- A JSON-like value, as produced by parsing the commerce API's response
body. JavaScript's `undefined` is represented by absence (`Option`). -/
inductive Json where
  | null : Json
  | bool (b : Bool) : Json
  | num (n : Int) : Json
  | str (s : String) : Json
  | arr (elems : List Json) : Json
  | obj (fields : List (String × Json)) : Json
deriving Repr

/-- Field access `j[k]`: only objects have named fields; property access on
anything else yields `undefined` (here `none`). Arrays have no named
string-keyed fields in parsed JSON. -/
def Json.getField : Json → String → Option Json
  | .obj fields, k => fields.lookup k
  | _, _ => none

/-- JavaScript falsiness restricted to JSON values: `null`, `false`, `0` and
the empty string are falsy; every object and array (even empty) is truthy. -/
def jsFalsy : Json → Bool
  | .null => true
  | .bool b => !b
  | .num n => n == 0
  | .str s => s == ""
  | _ => false

/-- `x && typeof x === 'object'`: truthy and of object type. `typeof null`
is `'object'` but `null` is falsy; arrays are objects in JavaScript. -/
def jsObjTruthy : Json → Bool
  | .obj _ => true
  | .arr _ => true
  | _ => false

/-- JavaScript `String.prototype.trim`: strip leading and trailing
whitespace. Defined by structural recursion over the character list so that
it evaluates inside the kernel. -/
def jsTrim (s : String) : String :=
  ⟨((s.data.dropWhile Char.isWhitespace).reverse.dropWhile Char.isWhitespace).reverse⟩

/-- JavaScript `String.prototype.toUpperCase` restricted to the ASCII range,
defined by structural recursion over the character list. -/
def jsToUpper (s : String) : String :=
  ⟨s.data.map Char.toUpper⟩

/-- `String(x)` for the JSON values that reach it in the source. -/
def jsToString : Json → String
  | .str s => s
  | .num n => toString n
  | .bool b => if b then "true" else "false"
  | .null => "null"
  | .arr _ => ""
  | .obj _ => "[object Object]"

/-- The per-entry test used by every history/items scan in
`extractInvoiceStatus`: the entry is truthy and its `status` field is a
non-blank string, which is returned trimmed. -/
def entryStatus (h : Json) : Option String :=
  if jsFalsy h then none
  else
    match h.getField "status" with
    | some (.str s) => if (jsTrim s) ≠ "" then some (jsTrim s) else none
    | _ => none

/-- Backward scan of a history array: for `x :: xs` the later elements `xs`
are examined first, so the last matching entry of the list wins. -/
def scanBack : List Json → Option String
  | [] => none
  | x :: xs => scanBack xs <|> entryStatus x

/-- Forward scan of an items array: first matching entry wins. -/
def scanFwd : List Json → Option String
  | [] => none
  | x :: xs => entryStatus x <|> scanFwd xs

/-- The inner probe on `invoice.status` when it is a truthy object
(source lines 254–274): its own `status` string, then a doubly nested
`status.status` string, then a backward scan of its `history` array. -/
def statusObjProbe (s : Json) : Option String :=
  (match s.getField "status" with
   | some (.str t) => if (jsTrim t) ≠ "" then some (jsTrim t) else none
   | _ => none)
  <|>
  (match s.getField "status" with
   | some inner =>
       if jsObjTruthy inner then
         match inner.getField "status" with
         | some (.str t) => if (jsTrim t) ≠ "" then some (jsTrim t) else none
         | _ => none
       else none
   | none => none)
  <|>
  (match s.getField "history" with
   | some (.arr xs) => if xs.length > 0 then scanBack xs else none
   | _ => none)

/-- One fallback key probe (source lines 283–294): accept a non-blank string
value, or a truthy object value whose `status` field is a non-blank string. -/
def altKeyProbe (invoice : Json) (k : String) : Option String :=
  (match invoice.getField k with
   | some (.str s) => if (jsTrim s) ≠ "" then some (jsTrim s) else none
   | _ => none)
  <|>
  (match invoice.getField k with
   | some v =>
       if jsObjTruthy v then
         match v.getField "status" with
         | some (.str t) => if (jsTrim t) ≠ "" then some (jsTrim t) else none
         | _ => none
       else none
   | none => none)

/-- `extractInvoiceStatus` (source lines 248–303): the ordered first-match
probe over the heterogeneous invoice document. Each source `if`-block
returns on success and otherwise falls through to the next, which is
exactly `Option.orElse` composition. -/
def extractInvoiceStatus (invoice : Json) : Option String :=
  if jsFalsy invoice then none
  else
    (match invoice.getField "status" with
     | some (.str s) => if (jsTrim s) ≠ "" then some (jsTrim s) else none
     | _ => none)
    <|>
    (match invoice.getField "status" with
     | some s => if jsObjTruthy s then statusObjProbe s else none
     | none => none)
    <|>
    (match invoice.getField "history" with
     | some (.arr xs) => if xs.length > 0 then scanBack xs else none
     | _ => none)
    <|>
    (altKeyProbe invoice "state" <|> altKeyProbe invoice "payment_status"
      <|> altKeyProbe invoice "status_text")
    <|>
    (match invoice.getField "items" with
     | some (.arr xs) => scanFwd xs
     | _ => none)

/-! ### The spec's ordered-probe description of the extractor (§4.1)

A second definition of the extractor, written from the specification's
step-by-step wording rather than from the source: `document.status` as a
non-blank string; else `document.status` as a mapping (string `status`,
doubly nested `status.status`, then its `history` scanned backward); else
`document.history` scanned backward; else the fallback keys `state`,
`payment_status`, `status_text` in order; else a forward scan of
`document.items`; else absent. The spec says "mapping" where the source
tests `typeof === 'object'` (which also admits arrays), and special-cases
only an absent/null document where the source guards all falsy values;
`extract_eq_specProbe` shows the two readings agree on every input. -/

/-- Spec §4.1 step 1: a non-blank string `document.status`, trimmed. -/
def specProbeTopStatus (d : Json) : Option String :=
  match d.getField "status" with
  | some (.str s) => if (jsTrim s) ≠ "" then some (jsTrim s) else none
  | _ => none

/-- Spec §4.1 step 2b, the nested value: a mapping whose `status` field is a
non-blank string. -/
def specNestedStatus (inner : Json) : Option String :=
  match inner with
  | .obj _ =>
      (match inner.getField "status" with
       | some (.str t) => if (jsTrim t) ≠ "" then some (jsTrim t) else none
       | _ => none)
  | _ => none

/-- Spec §4.1 step 2, the body applied to the value of `document.status`
when it is a mapping — its `status` string (2a), a doubly nested
`status.status` string (2b), then its `history` scanned from the last
element backward (2c). -/
def specStatusMappingBody (m : Json) : Option String :=
  match m with
  | .obj _ =>
      (match m.getField "status" with
       | some (.str t) => if (jsTrim t) ≠ "" then some (jsTrim t) else none
       | _ => none)
      <|>
      (match m.getField "status" with
       | some inner => specNestedStatus inner
       | none => none)
      <|>
      (match m.getField "history" with
       | some (.arr xs) => if xs.length > 0 then scanBack xs else none
       | _ => none)
  | _ => none

/-- Spec §4.1 step 2: `document.status` as a mapping. -/
def specProbeStatusMapping (d : Json) : Option String :=
  match d.getField "status" with
  | some v => specStatusMappingBody v
  | none => none

/-- Spec §4.1 step 3: `document.history` as a non-empty sequence, scanned
from the last element backward. -/
def specProbeTopHistory (d : Json) : Option String :=
  match d.getField "history" with
  | some (.arr xs) => if xs.length > 0 then scanBack xs else none
  | _ => none

/-- Spec §4.1 step 4, one key: a non-blank string value, or a mapping whose
`status` field is a non-blank string. -/
def specAltKey (d : Json) (k : String) : Option String :=
  match d.getField k with
  | some (.str s) => if (jsTrim s) ≠ "" then some (jsTrim s) else none
  | some v => specNestedStatus v
  | none => none

/-- Spec §4.1 step 5: `document.items` as a sequence, scanned forward. -/
def specProbeItems (d : Json) : Option String :=
  match d.getField "items" with
  | some (.arr xs) => scanFwd xs
  | _ => none

/-- The extractor as the spec describes it: absent on an absent/null
document, otherwise the five probes tried in order, first match wins. -/
def extractSpecProbe (d : Json) : Option String :=
  match d with
  | .null => none
  | _ =>
      specProbeTopStatus d <|> specProbeStatusMapping d
        <|> specProbeTopHistory d
        <|> (specAltKey d "state" <|> specAltKey d "payment_status"
              <|> specAltKey d "status_text")
        <|> specProbeItems d

/-! ### Equivalence of the source extractor with the spec's ordered probe -/

lemma nested_eq (inner : Json) :
    (if jsObjTruthy inner then
       (match inner.getField "status" with
        | some (.str t) => if (jsTrim t) ≠ "" then some (jsTrim t) else none
        | _ => none)
     else none) = specNestedStatus inner := by
  cases inner <;> rfl

lemma statusObjProbe_eq_specBody (v : Json) :
    (if jsObjTruthy v then statusObjProbe v else none) = specStatusMappingBody v := by
  cases v with
  | obj fields =>
      show statusObjProbe (.obj fields) = specStatusMappingBody (.obj fields)
      unfold statusObjProbe specStatusMappingBody
      cases h : (Json.obj fields).getField "status" with
      | none => simp only [h]
      | some inner => simp only [h, nested_eq inner]
  | arr xs => rfl
  | null => rfl
  | bool b => rfl
  | num n => rfl
  | str s => rfl

lemma comp2_eq (d : Json) :
    (match d.getField "status" with
     | some s => if jsObjTruthy s then statusObjProbe s else none
     | none => none) = specProbeStatusMapping d := by
  unfold specProbeStatusMapping
  cases h : d.getField "status" with
  | none => simp only [h]
  | some v => simp only [h]; exact statusObjProbe_eq_specBody v

lemma altKey_eq (d : Json) (k : String) : altKeyProbe d k = specAltKey d k := by
  unfold altKeyProbe specAltKey
  cases h : d.getField k with
  | none => simp only [h]; rfl
  | some v =>
      simp only [h]
      cases v with
      | str s => by_cases hs : (jsTrim s) = "" <;> simp [hs, jsObjTruthy]
      | obj f => rfl
      | arr xs => rfl
      | null => rfl
      | bool b => rfl
      | num n => rfl

/-- The source extractor agrees with the spec's five-step ordered probe on
every JSON input. -/
lemma extract_eq_specProbe (d : Json) : extractInvoiceStatus d = extractSpecProbe d := by
  cases d with
  | null => rfl
  | bool b => cases b <;> rfl
  | num n =>
      unfold extractInvoiceStatus extractSpecProbe
      split <;> rfl
  | str s =>
      unfold extractInvoiceStatus extractSpecProbe
      split <;> rfl
  | arr xs => rfl
  | obj fields =>
      show extractInvoiceStatus (.obj fields) = extractSpecProbe (.obj fields)
      unfold extractInvoiceStatus extractSpecProbe specProbeTopStatus specProbeTopHistory specProbeItems
      simp only [comp2_eq, altKey_eq]
      rfl

/-! ### The verification workflow (`invoice_modal` handler, source lines 1241–1493)

The handler's effects are made explicit: the persisted `verifications`
table is a list of records threaded through the run, the commerce API
response is an `Env` field, and the chat platform's guild state (member
present, bot permissions, role positions) is a small structure. Each
`editReply` in the source becomes a terminal `Outcome`; `renderOutcome`
maps outcomes back to the source's reply texts. -/

/-- One row of the `verifications` table (source lines 208–218). -/
structure VerificationRecord where
  invoiceId : String
  discordId : String
  productId : Option String
  roleId : String
  status : String
deriving Repr, DecidableEq

/-- `SELECT ... FROM verifications WHERE invoice_id = ?` (source line 1255). -/
def lookupRecord (records : List VerificationRecord) (id : String) :
    Option VerificationRecord :=
  records.find? (fun r => r.invoiceId == id)

/-- The outcome of the `axios.get` call on the commerce API: a 2xx response
with a parsed body, a non-2xx response with its status code, or a network
error / timeout with no response object. -/
inductive FetchResult where
  | ok (body : Json)
  | httpErr (code : Nat)
  | netErr
deriving Repr

/-- The guild state consulted by the grant phase (source lines 1361–1406). -/
structure GuildEnv where
  memberExists : Bool
  botHasManageRoles : Bool
  roleLookup : String → Option Int
  botHighestPos : Int
  grantFails : Bool

/-- Everything one verification attempt reads: the two tables, the
configured default role, the commerce API's response, the guild state, and
the three database-failure switches for the branches the source handles. -/
structure Env where
  records : List VerificationRecord
  roleMappings : List (String × String)
  verifyRoleId : Option String
  fetch : FetchResult
  guild : GuildEnv
  checkDbError : Bool
  mappingDbError : Bool
  insertDbError : Bool

/-- The terminal states of one verification attempt, one per distinct
`editReply` in the source handler. -/
inductive Outcome where
  | invalidInput
  | checkDbFailed
  | alreadyUsed (invoiceId : String)
  | unauthorized
  | notFound
  | upstreamUnavailable
  | notEligible (shown : String)
  | concurrentlyUsed (invoiceId : String)
  | insertFailed
  | noRoleConfigured
  | memberNotFound
  | insufficientPermission
  | roleNotFound
  | roleRankTooLow
  | grantFailed
  | granted (roleId : String) (status : String)
deriving Repr, DecidableEq

/-- What one attempt produced: its terminal outcome, the final state of the
`verifications` table, whether the external API was called, and the
role-add calls performed (role id and audit reason). -/
structure VerifyResult where
  outcome : Outcome
  records : List VerificationRecord
  fetched : Bool
  roleAdds : List (String × String)
deriving Repr, DecidableEq

/-- `resp.data?.data ?? resp.data ?? null` (source line 1281). -/
def unwrapBody (body : Json) : Json :=
  match body with
  | .null => Json.null
  | _ =>
      match body.getField "data" with
      | some .null => body
      | some v => v
      | none => body

/-- `it[k]` when truthy, for the `it.product_id || it.id || it.sku` chain. -/
def truthyField (it : Json) (k : String) : Option Json :=
  match it.getField k with
  | some v => if jsFalsy v then none else some v
  | none => none

/-- Product id resolution (source lines 1319–1329): a truthy top-level
`product_id` (stringified), else the first item's `product_id`, `id` or
`sku`, whichever is truthy first. Reading a property of a `null` first item
raises a TypeError in the source (caught by the surrounding try/catch),
modelled by `Except.error`. -/
def resolveProductId (invoice : Json) : Except Unit (Option String) :=
  let fromItems : Except Unit (Option String) :=
    match invoice.getField "items" with
    | some (.arr (it :: _)) =>
        match it with
        | .null => .error ()
        | _ => .ok ((truthyField it "product_id" <|> truthyField it "id"
                      <|> truthyField it "sku").map jsToString)
    | _ => .ok none
  match invoice.getField "product_id" with
  | some p => if jsFalsy p then fromItems else .ok (some (jsToString p))
  | none => fromItems

/-- Role resolution (source lines 1425–1460): with a product id, a mapping
row whose `role_id` is truthy wins, and both a missing or falsy-role row
and a database error reading the mapping fall back to the configured
`VERIFY_ROLE_ID`; without a product id the fallback is used directly.
`none` means no role is configured (three distinct replies in the source,
one outcome here). An unset or empty `VERIFY_ROLE_ID` environment variable
is represented as `none`, matching its truthiness test in the source. -/
def resolveRole (env : Env) (productId : Option String) : Option String :=
  match productId with
  | some pid =>
      if env.mappingDbError then env.verifyRoleId
      else
        match env.roleMappings.lookup pid with
        | some rid => if rid ≠ "" then some rid else env.verifyRoleId
        | none => env.verifyRoleId
  | none => env.verifyRoleId

/-- `assignRoleAndPersist` (source lines 1331–1423): insert the record
(uniqueness violation gives the `SQLITE_CONSTRAINT` reply, any other insert
error the generic one), then fetch the member, check Manage Roles, resolve
the role, compare positions, and add the role. Every failure after the
successful insert leaves the inserted record in place. The argument is
already a string, so the source's `String(roleIdToUse)` is the identity. -/
def assignRoleAndPersist (env : Env) (invoiceId userId : String)
    (productId : Option String) (currentStatus roleIdStr : String) : VerifyResult :=
  if (lookupRecord env.records invoiceId).isSome then
    ⟨.concurrentlyUsed invoiceId, env.records, true, []⟩
  else if env.insertDbError then
    ⟨.insertFailed, env.records, true, []⟩
  else
    let records' := env.records ++
      [⟨invoiceId, userId, productId, roleIdStr, currentStatus⟩]
    if !env.guild.memberExists then
      ⟨.memberNotFound, records', true, []⟩
    else if !env.guild.botHasManageRoles then
      ⟨.insufficientPermission, records', true, []⟩
    else
      match env.guild.roleLookup roleIdStr with
      | none => ⟨.roleNotFound, records', true, []⟩
      | some pos =>
          if env.guild.botHighestPos ≤ pos then
            ⟨.roleRankTooLow, records', true, []⟩
          else if env.guild.grantFails then
            ⟨.grantFailed, records', true, []⟩
          else
            ⟨.granted roleIdStr currentStatus, records', true,
              [(roleIdStr, "Verified invoice " ++ invoiceId)]⟩

/-- The accepted set of normalized statuses (source lines 1304–1309). -/
def validStatuses : List String := ["PAID", "COMPLETED", "FULFILLED", "SUCCESS"]

/-- One verification attempt end to end (source lines 1241–1493): trim and
require the invoice id, dedup-check it against the table, fetch the
document, unwrap and null-check the body, extract and uppercase the
status, gate on the accepted set, resolve the product id, resolve the
role, then persist and grant. -/
def verify (env : Env) (rawId userId : String) : VerifyResult :=
  if jsTrim rawId == "" then ⟨.invalidInput, env.records, false, []⟩
  else if env.checkDbError then ⟨.checkDbFailed, env.records, false, []⟩
  else
    match lookupRecord env.records (jsTrim rawId) with
    | some _ => ⟨.alreadyUsed (jsTrim rawId), env.records, false, []⟩
    | none =>
        match env.fetch with
        | .netErr => ⟨.upstreamUnavailable, env.records, true, []⟩
        | .httpErr code =>
            if code == 401 then ⟨.unauthorized, env.records, true, []⟩
            else if code == 404 then ⟨.notFound, env.records, true, []⟩
            else ⟨.upstreamUnavailable, env.records, true, []⟩
        | .ok body =>
            if jsFalsy (unwrapBody body) then ⟨.notFound, env.records, true, []⟩
            else
              match (extractInvoiceStatus (unwrapBody body)).map jsToUpper with
              | none => ⟨.notEligible "UNKNOWN", env.records, true, []⟩
              | some currentStatus =>
                  if !(validStatuses.contains currentStatus) then
                    ⟨.notEligible currentStatus, env.records, true, []⟩
                  else
                    match resolveProductId (unwrapBody body) with
                    | .error _ => ⟨.upstreamUnavailable, env.records, true, []⟩
                    | .ok productId =>
                        match resolveRole env productId with
                        | some roleId =>
                            assignRoleAndPersist env (jsTrim rawId) userId productId
                              currentStatus roleId
                        | none => ⟨.noRoleConfigured, env.records, true, []⟩

/-- The user-facing reply for each outcome, as the source words it (leading
status emoji omitted; the 2xx-empty-body variant of `notFound` reads
"Invoice not found or invalid response from Sell.app." in the source). -/
def renderOutcome : Outcome → String
  | .invalidInput => "Invoice ID is required."
  | .checkDbFailed => "Internal error while checking invoice. Try again later."
  | .alreadyUsed id => "Invoice ID " ++ id ++ " is already used by another discord account."
  | .unauthorized => "Sell.app API unauthorized (invalid API key)."
  | .notFound => "Invoice not found."
  | .upstreamUnavailable => "Could not verify invoice. Please try again later."
  | .notEligible shown => "Invoice status is " ++ shown ++ ". Not eligible."
  | .concurrentlyUsed id => "Invoice ID " ++ id ++ " was just used by another account."
  | .insertFailed => "Internal error while saving verification."
  | .noRoleConfigured => "Invoice verified but no role mapping found and VERIFY_ROLE_ID not configured."
  | .memberNotFound => "Invoice verified but could not find your guild member to assign role. Contact staff."
  | .insufficientPermission => "Invoice verified but bot lacks Manage Roles to assign role. Contact staff."
  | .roleNotFound => "Invoice verified but configured role not found in this server. Contact staff."
  | .roleRankTooLow => "Invoice verified but bot role is not high enough to assign the verification role. Contact staff."
  | .grantFailed => "Invoice verified but failed to assign role. Contact staff."
  | .granted _ status => "Invoice verified! Status: " ++ status ++ ". Role assigned."

/-! ### The button cooldown (source lines 74–84 and 1497–1511) -/

/-- `BUTTON_COOLDOWN_MS` (source line 74). -/
def BUTTON_COOLDOWN_MS : Int := 15000

/-- The cooldown decision (source lines 1499–1509): deny when less than
`BUTTON_COOLDOWN_MS` has elapsed since the stored timestamp, taking 0 when
no entry exists. `true` means the press is allowed. -/
def cooldownAllows (m : List (String × Int)) (userId : String) (now : Int) : Bool :=
  let last := (m.lookup userId).getD 0
  !(now - last < BUTTON_COOLDOWN_MS)

/-- The periodic prune (source lines 79–84): drop every entry older than
five cooldown windows. -/
def pruneCooldown (m : List (String × Int)) (now : Int) : List (String × Int) :=
  m.filter (fun e => !(now - e.2 > BUTTON_COOLDOWN_MS * 5))

/-! ### Structural lemmas about the workflow -/

/-- The outcomes that can only arise after a successful insert: the grant
phase's failures (source lines 1361–1420). -/
def postPersistFailure : Outcome → Bool
  | .memberNotFound => true
  | .insufficientPermission => true
  | .roleNotFound => true
  | .roleRankTooLow => true
  | .grantFailed => true
  | _ => false

lemma assign_shape (env : Env) (inv uid : String) (pid : Option String)
    (cs rid : String) :
    ((assignRoleAndPersist env inv uid pid cs rid).records = env.records ∧
      postPersistFailure (assignRoleAndPersist env inv uid pid cs rid).outcome = false) ∨
    ((assignRoleAndPersist env inv uid pid cs rid).records =
        env.records ++ [⟨inv, uid, pid, rid, cs⟩] ∧
      lookupRecord env.records inv = none) := by
  unfold assignRoleAndPersist
  by_cases h1 : (lookupRecord env.records inv).isSome
  · left; simp [h1, postPersistFailure]
  · have h1' : lookupRecord env.records inv = none :=
      Option.not_isSome_iff_eq_none.mp h1
    by_cases h2 : env.insertDbError
    · left; simp [h1, h2, postPersistFailure]
    · right
      refine ⟨?_, h1'⟩
      simp only [h1, h2, Bool.false_eq_true, if_false]
      repeat' split <;> try rfl

lemma verify_early_or_assign (env : Env) (rawId uid : String) :
    ((verify env rawId uid).records = env.records ∧
      (verify env rawId uid).roleAdds = [] ∧
      (∀ r c, (verify env rawId uid).outcome ≠ Outcome.granted r c) ∧
      postPersistFailure (verify env rawId uid).outcome = false) ∨
    (∃ pid cs rid, lookupRecord env.records (jsTrim rawId) = none ∧
      verify env rawId uid = assignRoleAndPersist env (jsTrim rawId) uid pid cs rid) := by
  unfold verify
  repeat' split
  all_goals try exact Or.inl ⟨rfl, rfl, fun r c => by simp, rfl⟩
  refine Or.inr ⟨_, _, _, ?_, rfl⟩
  assumption

lemma assign_grant_facts (env : Env) (inv uid : String) (pid : Option String)
    (cs rid : String) :
    (∀ r c, (assignRoleAndPersist env inv uid pid cs rid).outcome = Outcome.granted r c →
       ∃ pos, env.guild.roleLookup r = some pos ∧ pos < env.guild.botHighestPos) ∧
    ((assignRoleAndPersist env inv uid pid cs rid).roleAdds ≠ [] →
       ∃ pos, env.guild.roleLookup rid = some pos ∧ pos < env.guild.botHighestPos) ∧
    ((assignRoleAndPersist env inv uid pid cs rid).outcome = Outcome.roleRankTooLow →
       (assignRoleAndPersist env inv uid pid cs rid).roleAdds = []) := by
  unfold assignRoleAndPersist
  repeat' split
  all_goals
    refine ⟨fun r c h => ?_, fun h => ?_, fun h => ?_⟩ <;> simp_all

/-! ### Lemmas about the cooldown map -/

lemma lookup_none_of_not_mem (k : String) (m : List (String × Int))
    (h : ∀ e ∈ m, e.1 ≠ k) : m.lookup k = none := by
  induction m with
  | nil => rfl
  | cons e t ih =>
      obtain ⟨a, b⟩ := e
      have ha : a ≠ k := h (a, b) (List.mem_cons_self _ _)
      have hk : (k == a) = false := by
        simp only [beq_eq_false_iff_ne]
        exact fun hh => ha hh.symm
      simp only [List.lookup, hk]
      exact ih (fun x hx => h x (List.mem_cons_of_mem _ hx))

lemma lookup_mem (m : List (String × Int)) (k : String) (v : Int)
    (h : m.lookup k = some v) : (k, v) ∈ m := by
  induction m with
  | nil => cases h
  | cons e t ih =>
      obtain ⟨a, b⟩ := e
      cases hk : (k == a) with
      | true =>
          simp only [List.lookup, hk] at h
          obtain rfl : b = v := by injection h
          obtain rfl : k = a := by simpa [beq_iff_eq] using hk
          exact List.mem_cons_self _ _
      | false =>
          simp only [List.lookup, hk] at h
          exact List.mem_cons_of_mem _ (ih h)

lemma lookup_filter (p : String × Int → Bool) (m : List (String × Int)) (k : String)
    (hnd : (m.map Prod.fst).Nodup) :
    (m.filter p).lookup k =
      (match m.lookup k with
       | some v => if p (k, v) then some v else none
       | none => none) := by
  induction m with
  | nil => rfl
  | cons e t ih =>
      obtain ⟨a, b⟩ := e
      simp only [List.map_cons, List.nodup_cons] at hnd
      obtain ⟨hna, hndt⟩ := hnd
      by_cases hk : k = a
      · subst hk
        cases hp : p (k, b)
        · simp only [List.filter, hp, List.lookup, beq_self_eq_true]
          apply lookup_none_of_not_mem
          intro e he
          intro habs
          exact hna (by
            have hmem := List.mem_of_mem_filter he
            have : e.1 ∈ t.map Prod.fst := List.mem_map_of_mem Prod.fst hmem
            rwa [habs] at this)
        · simp [List.filter, hp, List.lookup]
      · have hkb : (k == a) = false := by
          simp only [beq_eq_false_iff_ne]; exact hk
        cases hp : p (a, b) <;>
          simp [List.filter, hp, List.lookup, hkb, ih hndt]

/-! ### Concrete environments used by counterexamples and witnesses -/

/-- A guild where the bot can grant: member present, Manage Roles held,
`role9` at position 3, bot's highest role at position 10. -/
def guildFull : GuildEnv :=
  ⟨true, true, (fun r => if r == "role9" then some 3 else none), 10, false⟩

/-- A guild where the bot lacks Manage Roles and `role9` sits at the bot's
own highest position (rank not strictly higher). -/
def guildNoPermEq : GuildEnv :=
  ⟨true, false, (fun r => if r == "role9" then some 10 else none), 10, false⟩

/-- An eligible invoice document carrying a product id. -/
def docPaidProd : Json :=
  Json.obj [("status", Json.str "paid"), ("product_id", Json.str "prod1")]

/-- An invoice document whose status is not in the accepted set. -/
def docRefunded : Json := Json.obj [("status", Json.str "Refunded")]

/-- Empty tables, no role mapping for `prod1`, no configured default role. -/
def envNoRole : Env := ⟨[], [], none, .ok docPaidProd, guildFull, false, false, false⟩

/-- Empty tables, ineligible document. -/
def envRefunded : Env := ⟨[], [], none, .ok docRefunded, guildFull, false, false, false⟩

/-- Mapping `prod1 → role9`, but the bot lacks Manage Roles and the role's
rank equals the bot's highest rank. -/
def envRankEqNoPerm : Env :=
  ⟨[], [("prod1", "role9")], none, .ok docPaidProd, guildNoPermEq, false, false, false⟩

/-- A consumed record for invoice `INV1` by account `u1`. -/
def recUsed : VerificationRecord := ⟨"INV1", "u1", none, "role9", "PAID"⟩

/-- A table already containing `recUsed`. -/
def envUsed : Env :=
  ⟨[recUsed], [("prod1", "role9")], none, .ok docPaidProd, guildFull, false, false, false⟩

/-- The upstream responds 401. -/
def env401 : Env := ⟨[], [], some "role9", .httpErr 401, guildFull, false, false, false⟩

/-- A fully healthy environment: the mapping resolves and the grant
succeeds. -/
def envGrant : Env :=
  ⟨[], [("prod1", "role9")], none, .ok docPaidProd, guildFull, false, false, false⟩

/-- Mapping present but the requesting member is not in the guild. -/
def envNoMember : Env :=
  ⟨[], [("prod1", "role9")], none, .ok docPaidProd,
    ⟨false, true, (fun r => if r == "role9" then some 3 else none), 10, false⟩,
    false, false, false⟩

/-! ### C1 -/

/-- C1, counterexample. The claim says that when the resolved product id has
no RoleMapping entry and no default role is configured, `verify` ends in
`NoRoleConfigured` with a VerificationRecord already persisted, so a retry
yields `AlreadyUsed`. On the code, persistence lives inside
`assignRoleAndPersist`, which is only called once a role has been resolved:
in this situation nothing is persisted (the final table is empty) and a
retry of the same invoice id runs role resolution again, ending in
`NoRoleConfigured` a second time rather than `AlreadyUsed`. -/
theorem C1_counterexample :
    (verify envNoRole "INV1" "u1").outcome = Outcome.noRoleConfigured ∧
    (verify envNoRole "INV1" "u1").records = [] ∧
    (verify (⟨(verify envNoRole "INV1" "u1").records, [], none, .ok docPaidProd,
        guildFull, false, false, false⟩ : Env) "INV1" "u1").outcome
      = Outcome.noRoleConfigured := by decide

/-- C1, amended: when the invoice passes eligibility, a product id resolves
but has no RoleMapping row (with the mapping read succeeding) and no
default verification role is configured, `verify` terminates with
`NoRoleConfigured` and does NOT persist any VerificationRecord — the table
is unchanged, so a retry of the same invoice id behaves identically
(another role-resolution attempt), not `AlreadyUsed`. Role resolution
happens before persistence, not after it. -/
theorem C1_noRoleConfigured_not_persisted
    (env : Env) (rawId userId : String) (body : Json) (pid cs : String)
    (hid : (jsTrim rawId == "") = false)
    (hchk : env.checkDbError = false)
    (hnew : lookupRecord env.records (jsTrim rawId) = none)
    (hfetch : env.fetch = .ok body)
    (hbody : jsFalsy (unwrapBody body) = false)
    (hstat : (extractInvoiceStatus (unwrapBody body)).map jsToUpper = some cs)
    (hmem : validStatuses.contains cs = true)
    (hpid : resolveProductId (unwrapBody body) = .ok (some pid))
    (hmapok : env.mappingDbError = false)
    (hnomap : env.roleMappings.lookup pid = none)
    (hnodef : env.verifyRoleId = none) :
    (verify env rawId userId).outcome = Outcome.noRoleConfigured ∧
    (verify env rawId userId).records = env.records ∧
    verify { env with records := (verify env rawId userId).records } rawId userId
      = verify env rawId userId := by
  have hrole : resolveRole env (some pid) = none := by
    simp [resolveRole, hmapok, hnomap, hnodef]
  have hmem' : cs ∈ validStatuses := by simpa using hmem
  have hv : verify env rawId userId = ⟨Outcome.noRoleConfigured, env.records, true, []⟩ := by
    unfold verify
    simp [hid, hchk, hnew, hfetch, hbody, hstat, hmem', hpid, hrole]
  exact ⟨by rw [hv], by rw [hv], by rw [hv]; exact hv⟩

/-- C1, witness for the amended theorem at the concrete misconfigured
environment. -/
theorem C1_noRoleConfigured_witness :
    (verify envNoRole "INV1" "u1").outcome = Outcome.noRoleConfigured ∧
    (verify envNoRole "INV1" "u1").records = envNoRole.records ∧
    verify { envNoRole with records := (verify envNoRole "INV1" "u1").records } "INV1" "u1"
      = verify envNoRole "INV1" "u1" :=
  C1_noRoleConfigured_not_persisted envNoRole "INV1" "u1" docPaidProd "prod1" "PAID"
    (by decide) rfl rfl rfl (by decide) (by decide) (by decide) rfl rfl rfl rfl

/-! ### C2 and C3 -/

/-- C2: `extractInvoiceStatus` implements exactly the spec's ordered
first-match probe of §4.1 (`extractSpecProbe`, written from the spec's
wording) on every input document, and the three quoted examples hold:
`extract(status: paid) = paid`, `extract(status: (status: Completed)) =
Completed`, and `extract(status: (history: [pending, fulfilled])) =
fulfilled` (last entry wins). -/
theorem C2_extractor_implements_spec_probe :
    (∀ d : Json, extractInvoiceStatus d = extractSpecProbe d) ∧
    extractInvoiceStatus (Json.obj [("status", Json.str "paid")]) = some "paid" ∧
    extractInvoiceStatus
        (Json.obj [("status", Json.obj [("status", Json.str "Completed")])])
      = some "Completed" ∧
    extractInvoiceStatus
        (Json.obj [("status", Json.obj [("history",
          Json.arr [Json.obj [("status", Json.str "pending")],
            Json.obj [("status", Json.str "fulfilled")]])])])
      = some "fulfilled" :=
  ⟨extract_eq_specProbe, by decide, by decide, by decide⟩

/-- C3: the extractor is a total function of its input (it is defined for
every `Json` value, including null and arbitrarily mistyped or nested
fields, so no input can raise), and on any document lacking every probed
field — `status`, `history`, `state`, `payment_status`, `status_text`,
`items` — it returns absent. -/
theorem C3_absent_without_probed_fields
    (d : Json)
    (h1 : d.getField "status" = none) (h2 : d.getField "history" = none)
    (h3 : d.getField "state" = none) (h4 : d.getField "payment_status" = none)
    (h5 : d.getField "status_text" = none) (h6 : d.getField "items" = none) :
    extractInvoiceStatus d = none := by
  unfold extractInvoiceStatus altKeyProbe
  simp [h1, h2, h3, h4, h5, h6]

/-- C3, witness: a document with only unprobed fields, plus the null
document. -/
theorem C3_absent_witness :
    extractInvoiceStatus (Json.obj [("foo", Json.num 1),
      ("bar", Json.arr [Json.null])]) = none :=
  C3_absent_without_probed_fields _ rfl rfl rfl rfl rfl rfl

/-! ### C4 -/

lemma assign_outcome_not_notEligible (env : Env) (inv uid : String)
    (pid : Option String) (cs rid : String) (t : String) :
    (assignRoleAndPersist env inv uid pid cs rid).outcome ≠ Outcome.notEligible t := by
  unfold assignRoleAndPersist
  repeat' split
  all_goals simp

/-- C4, counterexample. The claim says `NotEligible` carries the observed
raw status. On the code, the status is uppercased before the eligibility
check and the `NotEligible` reply shows that uppercased value: for a
document whose extracted raw status is `Refunded`, the carried value is
`REFUNDED`, not `Refunded`. -/
theorem C4_counterexample :
    extractInvoiceStatus (unwrapBody docRefunded) = some "Refunded" ∧
    (verify envRefunded "INV1" "u1").outcome = Outcome.notEligible "REFUNDED" ∧
    Outcome.notEligible "REFUNDED" ≠ Outcome.notEligible "Refunded" := by decide

/-- C4, amended: the eligibility decision is case-insensitive — `verify`
uppercases the extracted status and proceeds past the eligibility gate if
and only if the uppercased value is in the accepted set
{PAID, COMPLETED, FULFILLED, SUCCESS} (so `paid`, `PAID` and `Paid` are all
accepted); if the status is absent, or its uppercasing is outside the set,
`verify` terminates with `NotEligible` carrying the UPPERCASED status
(`UNKNOWN` when absent), not the raw one. -/
theorem C4_eligibility_case_insensitive
    (env : Env) (rawId userId : String) (body : Json)
    (hid : (jsTrim rawId == "") = false)
    (hchk : env.checkDbError = false)
    (hnew : lookupRecord env.records (jsTrim rawId) = none)
    (hfetch : env.fetch = .ok body)
    (hbody : jsFalsy (unwrapBody body) = false) :
    (extractInvoiceStatus (unwrapBody body) = none →
       (verify env rawId userId).outcome = Outcome.notEligible "UNKNOWN") ∧
    (∀ s, extractInvoiceStatus (unwrapBody body) = some s →
       validStatuses.contains (jsToUpper s) = false →
       (verify env rawId userId).outcome = Outcome.notEligible (jsToUpper s)) ∧
    (∀ s, extractInvoiceStatus (unwrapBody body) = some s →
       validStatuses.contains (jsToUpper s) = true →
       ∀ t, (verify env rawId userId).outcome ≠ Outcome.notEligible t) := by
  refine ⟨fun habs => ?_, fun s hs hns => ?_, fun s hs hmem t => ?_⟩
  · unfold verify
    simp [hid, hchk, hnew, hfetch, hbody, habs]
  · have hns' : jsToUpper s ∉ validStatuses := by simpa using hns
    unfold verify
    simp [hid, hchk, hnew, hfetch, hbody, hs, hns']
  · have hmem' : jsToUpper s ∈ validStatuses := by simpa using hmem
    unfold verify
    simp only [hid, hchk, hnew, hfetch, hbody, Bool.false_eq_true, if_false]
    simp [hs, hmem']
    split
    · simp
    · split
      · exact assign_outcome_not_notEligible env (jsTrim rawId) userId _ _ _ t
      · simp

/-- C4, witness for the amended theorem: the `Refunded` document is
rejected carrying the uppercased value. -/
theorem C4_eligibility_witness :
    (verify envRefunded "INV1" "u1").outcome = Outcome.notEligible (jsToUpper "Refunded") :=
  (C4_eligibility_case_insensitive envRefunded "INV1" "u1" docRefunded
      (by decide) rfl rfl rfl (by decide)).2.1 "Refunded" (by decide) (by decide)

/-! ### C5 and C6 -/

/-- C5: fetch-failure mapping — a network error or timeout (no response)
gives `UpstreamUnavailable`; an HTTP error response gives `Unauthorized`
for 401, `NotFound` for 404, and `UpstreamUnavailable` otherwise; a 2xx
response whose unwrapped body is empty/absent (falsy) gives `NotFound`.
Every fetch failure is mapped to a terminal outcome of the total function
`verify`, so none escapes as an uncaught fault. -/
theorem C5_fetch_failure_mapping
    (env : Env) (rawId userId : String)
    (hid : (jsTrim rawId == "") = false)
    (hchk : env.checkDbError = false)
    (hnew : lookupRecord env.records (jsTrim rawId) = none) :
    (env.fetch = .netErr →
       (verify env rawId userId).outcome = Outcome.upstreamUnavailable) ∧
    (∀ code, env.fetch = .httpErr code →
       (verify env rawId userId).outcome =
         (if code = 401 then Outcome.unauthorized
          else if code = 404 then Outcome.notFound
          else Outcome.upstreamUnavailable)) ∧
    (∀ body, env.fetch = .ok body → jsFalsy (unwrapBody body) = true →
       (verify env rawId userId).outcome = Outcome.notFound) := by
  refine ⟨fun hf => ?_, fun code hf => ?_, fun body hf hb => ?_⟩
  · unfold verify
    simp [hid, hchk, hnew, hf]
  · unfold verify
    simp only [hid, hchk, hnew, hf, Bool.false_eq_true, if_false]
    by_cases h1 : code = 401
    · simp [h1]
    · by_cases h4 : code = 404 <;> simp [h1, h4]
  · unfold verify
    simp [hid, hchk, hnew, hf, hb]

/-- C5, witness: a 401 response at a concrete environment is reported as
`Unauthorized`. -/
theorem C5_fetch_failure_witness :
    (verify env401 "INV1" "u1").outcome = Outcome.unauthorized := by
  have h := (C5_fetch_failure_mapping env401 "INV1" "u1"
      (by decide) rfl rfl).2.1 401 rfl
  simpa using h

/-- C6: when the submitted invoice id is already in the persisted record
set (and the dedup lookup itself succeeds), `verify` terminates with
`AlreadyUsed`, performs no external fetch, and changes no state: the
record table is returned unchanged and no role-add call is made. -/
theorem C6_dedup_short_circuits
    (env : Env) (rawId userId : String) (r : VerificationRecord)
    (hid : (jsTrim rawId == "") = false)
    (hchk : env.checkDbError = false)
    (hfound : lookupRecord env.records (jsTrim rawId) = some r) :
    verify env rawId userId =
      ⟨Outcome.alreadyUsed (jsTrim rawId), env.records, false, []⟩ := by
  unfold verify
  simp [hid, hchk, hfound]

/-- C6, witness: the environment whose table already holds `INV1`. -/
theorem C6_dedup_witness :
    verify envUsed "INV1" "u2" =
      ⟨Outcome.alreadyUsed (jsTrim "INV1"), envUsed.records, false, []⟩ :=
  C6_dedup_short_circuits envUsed "INV1" "u2" recUsed (by decide) rfl (by decide)

/-! ### C7 -/

/-- C7: the workflow never updates or deletes a record — the final table is
always the initial table with at most one record appended, that record
carries the submitted (trimmed) invoice id and the requester's account id,
and it is only appended when the id was not already present (write-once).
Moreover every post-persistence failure (member not found, missing
permission, missing role, rank too low, grant error) leaves the inserted
record in place: whenever `verify` ends in one of those outcomes the final
table is exactly the initial table plus the new record. -/
theorem C7_records_append_only (env : Env) (rawId userId : String) :
    ((verify env rawId userId).records = env.records ∨
      (∃ rec : VerificationRecord,
        (verify env rawId userId).records = env.records ++ [rec] ∧
        rec.invoiceId = jsTrim rawId ∧ rec.discordId = userId ∧
        lookupRecord env.records (jsTrim rawId) = none)) ∧
    (postPersistFailure (verify env rawId userId).outcome = true →
      ∃ rec : VerificationRecord,
        (verify env rawId userId).records = env.records ++ [rec] ∧
        rec.invoiceId = jsTrim rawId) := by
  rcases verify_early_or_assign env rawId userId with
    ⟨h1, _h2, _h3, h4⟩ | ⟨pid, cs, rid, hnone, heq⟩
  · exact ⟨Or.inl h1, fun habs => by rw [h4] at habs; cases habs⟩
  · rcases assign_shape env (jsTrim rawId) userId pid cs rid with
      ⟨g1, g2⟩ | ⟨g1, g2⟩
    · rw [heq]
      exact ⟨Or.inl g1, fun habs => by rw [g2] at habs; cases habs⟩
    · rw [heq]
      exact ⟨Or.inr ⟨⟨jsTrim rawId, userId, pid, rid, cs⟩, g1, rfl, rfl, g2⟩,
        fun _ => ⟨⟨jsTrim rawId, userId, pid, rid, cs⟩, g1, rfl⟩⟩

/-- C7, witness: a run that fails after the insert (member not in guild)
still ends with exactly the inserted record in the table. -/
theorem C7_records_witness :
    (verify envNoMember "INV1" "u1").records = envNoMember.records ++
      [⟨jsTrim "INV1", "u1", some "prod1", "role9", "PAID"⟩] ∧
    (verify envNoMember "INV1" "u1").outcome = Outcome.memberNotFound := by
  have h := (C7_records_append_only envNoMember "INV1" "u1").2 (by decide)
  obtain ⟨rec, hrec, _⟩ := h
  constructor
  · rw [hrec]
    have : rec = ⟨jsTrim "INV1", "u1", some "prod1", "role9", "PAID"⟩ := by
      have hv : (verify envNoMember "INV1" "u1").records =
          [⟨jsTrim "INV1", "u1", some "prod1", "role9", "PAID"⟩] := by decide
      rw [hv] at hrec
      simpa [envNoMember] using hrec.symm
    rw [this]
  · decide

/-! ### C8 -/

/-- C8, counterexample. The claim says that whenever the granting actor's
highest rank is not strictly above the target role's rank, `verify`
terminates with `RoleRankTooLow` regardless of the actor's other
permissions. On the code the Manage-Roles check precedes the rank check:
with the role's position equal to the bot's highest position AND Manage
Roles missing, the outcome is `InsufficientPermission`, not
`RoleRankTooLow`. -/
theorem C8_counterexample :
    envRankEqNoPerm.guild.botHighestPos ≤
      (envRankEqNoPerm.guild.roleLookup "role9").getD 0 ∧
    (verify envRankEqNoPerm "INV1" "u1").outcome = Outcome.insufficientPermission ∧
    (verify envRankEqNoPerm "INV1" "u1").outcome ≠ Outcome.roleRankTooLow := by decide

/-- C8, amended: a grant succeeds only under a strictly higher rank — if
`verify` ends in `Granted` or performs any role-add call, the target role's
position is strictly below the granting actor's highest position; when the
grant phase actually reaches the rank check (record inserted, member
found, Manage Roles held, role resolved) and the rank is equal or lower,
the outcome is `RoleRankTooLow` and no role is added — but an actor whose
rank is insufficient may instead surface an earlier failure (such as
`InsufficientPermission`), so a non-strictly-higher actor never grants,
while the specific `RoleRankTooLow` outcome is not guaranteed under
missing permissions. -/
theorem C8_rank_gate (env : Env) (rawId userId : String) :
    (∀ r c, (verify env rawId userId).outcome = Outcome.granted r c →
       ∃ pos, env.guild.roleLookup r = some pos ∧ pos < env.guild.botHighestPos) ∧
    ((verify env rawId userId).roleAdds ≠ [] →
       ∃ rid pos, env.guild.roleLookup rid = some pos ∧
         pos < env.guild.botHighestPos) ∧
    ((verify env rawId userId).outcome = Outcome.roleRankTooLow →
       (verify env rawId userId).roleAdds = []) ∧
    (∀ inv pid cs rid pos,
       lookupRecord env.records inv = none → env.insertDbError = false →
       env.guild.memberExists = true → env.guild.botHasManageRoles = true →
       env.guild.roleLookup rid = some pos → env.guild.botHighestPos ≤ pos →
       assignRoleAndPersist env inv userId pid cs rid =
         ⟨Outcome.roleRankTooLow,
          env.records ++ [⟨inv, userId, pid, rid, cs⟩], true, []⟩) := by
  refine ⟨?_, ?_, ?_, ?_⟩
  · intro r c h
    rcases verify_early_or_assign env rawId userId with
      ⟨_, _, h3, _⟩ | ⟨pid, cs, rid, _, heq⟩
    · exact absurd h (h3 r c)
    · rw [heq] at h
      exact (assign_grant_facts env (jsTrim rawId) userId pid cs rid).1 r c h
  · intro h
    rcases verify_early_or_assign env rawId userId with
      ⟨_, h2, _, _⟩ | ⟨pid, cs, rid, _, heq⟩
    · exact absurd h2 h
    · rw [heq] at h
      exact ⟨rid, (assign_grant_facts env (jsTrim rawId) userId pid cs rid).2.1 h⟩
  · intro h
    rcases verify_early_or_assign env rawId userId with
      ⟨_, h2, _, _⟩ | ⟨pid, cs, rid, _, heq⟩
    · exact h2
    · rw [heq] at h ⊢
      exact (assign_grant_facts env (jsTrim rawId) userId pid cs rid).2.2 h
  · intro inv pid cs rid pos hnone hins hmem hperm hrole hrank
    unfold assignRoleAndPersist
    simp [hnone, hins, hmem, hperm, hrole, hrank]

/-- C8, witness: a full successful run performs a role add, so the target
role's position is strictly below the bot's highest. -/
theorem C8_rank_gate_witness :
    ∃ rid pos, envGrant.guild.roleLookup rid = some pos ∧
      pos < envGrant.guild.botHighestPos :=
  (C8_rank_gate envGrant "INV1" "u1").2.1 (by decide)

/-! ### C9 -/

/-- C9: pruning the cooldown map never changes a cooldown decision — for
any account and any decision time at or after the prune time, over a map
with unique keys and non-negative stored timestamps (they are clock
readings), the allow/deny outcome on the pruned map equals the outcome on
the unpruned map: pruning only discards entries older than five cooldown
windows, for which both maps decide "allow". -/
theorem C9_prune_preserves_cooldown_decision
    (m : List (String × Int)) (userId : String) (tp t : Int)
    (hnodup : (m.map Prod.fst).Nodup)
    (hpos : ∀ e ∈ m, 0 ≤ e.2)
    (hle : tp ≤ t) :
    cooldownAllows (pruneCooldown m tp) userId t = cooldownAllows m userId t := by
  unfold cooldownAllows pruneCooldown
  rw [lookup_filter _ m userId hnodup]
  cases hlk : m.lookup userId with
  | none => rfl
  | some v =>
      have hv0 : 0 ≤ v := hpos _ (lookup_mem m userId v hlk)
      by_cases hkeep : (tp - v > BUTTON_COOLDOWN_MS * 5)
      · -- entry pruned: both sides allow
        have h0 : ¬(t - 0 < BUTTON_COOLDOWN_MS) := by
          unfold BUTTON_COOLDOWN_MS at hkeep ⊢; omega
        have hv' : ¬(t - v < BUTTON_COOLDOWN_MS) := by
          unfold BUTTON_COOLDOWN_MS at hkeep ⊢; omega
        have h00 : BUTTON_COOLDOWN_MS ≤ t := by
          unfold BUTTON_COOLDOWN_MS at hkeep ⊢; omega
        simp [hkeep, h0, hv', h00]
      · -- entry kept: identical stored timestamp
        simp [hkeep]

/-- C9, witness: a concrete entry old enough to be pruned decides the same
as the unpruned map. -/
theorem C9_prune_witness :
    cooldownAllows (pruneCooldown [("u", 100)] 80000) "u" 80000 =
      cooldownAllows [("u", 100)] "u" 80000 :=
  C9_prune_preserves_cooldown_decision [("u", 100)] "u" 80000 80000
    (by decide) (by decide) (by decide)

/-! ### C10 -/

/-- C10: the dedup decision depends only on the invoice id, never on the
requesting account — even when the stored record's account id equals the
requester's, the outcome is `AlreadyUsed`, the rendered reply still
attributes the prior use to another discord account, and swapping the
requesting account changes nothing about the result. -/
theorem C10_dedup_ignores_account
    (env : Env) (rawId userId : String) (r : VerificationRecord)
    (hid : (jsTrim rawId == "") = false)
    (hchk : env.checkDbError = false)
    (hmem : r ∈ env.records) (hrid : r.invoiceId = jsTrim rawId)
    (_hself : r.discordId = userId) :
    (verify env rawId userId).outcome = Outcome.alreadyUsed (jsTrim rawId) ∧
    renderOutcome (verify env rawId userId).outcome =
      "Invoice ID " ++ jsTrim rawId ++ " is already used by another discord account." ∧
    (∀ otherUser, verify env rawId otherUser = verify env rawId userId) := by
  have hsome : (lookupRecord env.records (jsTrim rawId)).isSome = true := by
    apply List.find?_isSome.mpr
    exact ⟨r, hmem, by simp [hrid]⟩
  obtain ⟨r', hr'⟩ := Option.isSome_iff_exists.mp hsome
  have hv : ∀ u, verify env rawId u =
      ⟨Outcome.alreadyUsed (jsTrim rawId), env.records, false, []⟩ := by
    intro u
    unfold verify
    simp [hid, hchk, hr']
  exact ⟨by rw [hv userId], by rw [hv userId]; rfl,
    fun other => by rw [hv other, hv userId]⟩

/-- C10, witness: the very account that performed the original verification
(`u1` holds the record for `INV1`) is itself told the id was already used
by another account. -/
theorem C10_dedup_witness :
    (verify envUsed "INV1" "u1").outcome = Outcome.alreadyUsed (jsTrim "INV1") ∧
    renderOutcome (verify envUsed "INV1" "u1").outcome =
      "Invoice ID " ++ jsTrim "INV1" ++ " is already used by another discord account." ∧
    (∀ otherUser, verify envUsed "INV1" otherUser = verify envUsed "INV1" "u1") :=
  C10_dedup_ignores_account envUsed "INV1" "u1" recUsed
    (by decide) rfl (by decide) (by decide) rfl
